import Mathlib

/-!
Shallow embedding of the ETA prediction service (`src/app.py`) of the
ETA_Model_Deployment repository.

Modelling conventions:
* JSON scalar values and pandas cell values are modelled by the inductive
  type `Value` (float, text, boolean, null/NaN marker).  Python floats are
  modelled as rationals (`ℚ`).
* A payload / one-row DataFrame is an association list
  `List (String × Value)`; column order is the list order, and
  `List.lookup` mirrors dict/column access (dict keys are unique in
  Python, so first-match lookup agrees).
* The scaling parameter files are opaque data loaded at startup; they are
  parameters of type `ScalingDict` (per-column `{min, max}` bounds) and
  `String → EtaMinMax` (per-mode ETA bounds).
* The two CatBoost models are opaque scoring functions, parameters of type
  `List (String × Value) → ℚ` (shaped row to scalar, mirroring
  `model.predict(X)[0]`).
* `pd.DataFrame([payload])`, `astype(float)` / `astype(str)` and the
  reindexing `df[expected_cols]` are modelled per-cell on the single-row
  frame; `float()` parsing is modelled for sign/digits/decimal-point
  literals, and `str()` of a float by a decimal rendering — neither the
  parse set nor the exact rendered text is load-bearing for any property
  below.
-/

namespace EtaModel

/-- A JSON / pandas cell value: float, text, boolean, or the null/NaN
marker (`None` in a payload, `np.nan` in a DataFrame). -/
inductive Value where
  | vnum (x : ℚ)
  | vstr (s : String)
  | vbool (b : Bool)
  | vnull
  deriving DecidableEq, Repr

/-- `True` exactly for text values (`str` cells). -/
def is_text : Value → Bool
  | .vstr _ => true
  | _ => false

/-- Python `isinstance(val, (int, float))`: true for numbers and also for
booleans (`bool` is a subclass of `int`). -/
def is_numeric : Value → Bool
  | .vnum _ => true
  | .vbool _ => true
  | _ => false

/-- Numeric reading of a value where Python arithmetic would coerce it:
booleans count as 1/0.  Only ever applied to values passing
`is_numeric`; the remaining cases are irrelevant defaults. -/
def to_number : Value → ℚ
  | .vnum x => x
  | .vbool b => if b then 1 else 0
  | _ => 0

/-- Digits of a character list read as a natural number, `none` if any
character is not a decimal digit or the list is empty. -/
def digitsToNat : List Char → Option Nat
  | [] => none
  | cs =>
    if cs.all Char.isDigit then
      some (cs.foldl (fun acc c => acc * 10 + (c.toNat - 48)) 0)
    else
      none

/-- Model of Python `float(s)` restricted to optional sign, integer
digits, optional decimal point and fraction digits (e.g. `"2.3"`,
`"-10"`, `"5."`, `".5"`).  Returns `none` when `float()` would raise. -/
def parseFloat (s : String) : Option ℚ :=
  let cs := s.toList
  let (sign, body) :=
    match cs with
    | '-' :: rest => ((-1 : ℚ), rest)
    | '+' :: rest => ((1 : ℚ), rest)
    | _ => ((1 : ℚ), cs)
  let ip := body.takeWhile Char.isDigit
  let rest := body.dropWhile Char.isDigit
  match rest with
  | [] =>
    match digitsToNat ip with
    | some n => some (sign * n)
    | none => none
  | '.' :: fp =>
    if fp.all Char.isDigit ∧ (ip ≠ [] ∨ fp ≠ []) then
      let ipn := (digitsToNat ip).getD 0
      let fpn := (digitsToNat fp).getD 0
      some (sign * ((ipn : ℚ) + (fpn : ℚ) / (10 : ℚ) ^ fp.length))
    else none
  | _ => none

/-- Decimal digit character for `n < 10`. -/
def natDigitChar (n : Nat) : Char := Char.ofNat (48 + n)

/-- Fuel-bounded decimal expansion of a rational in `[0, 1)`. -/
def fracDigits : Nat → ℚ → List Char
  | 0, _ => []
  | fuel + 1, x =>
    if x = 0 then []
    else
      let y := x * 10
      let d := Int.floor y
      natDigitChar d.toNat :: fracDigits fuel (y - (d : ℚ))

/-- Model of Python `str()` applied to a float: sign, integer part, a
decimal point, and (up to 17) fraction digits, `"5.0"` style for whole
numbers. -/
def floatRepr (x : ℚ) : String :=
  let sign := if x < 0 then "-" else ""
  let a := |x|
  let ip := (Int.floor a).toNat
  let fr := a - (ip : ℚ)
  if fr = 0 then
    sign ++ toString ip ++ ".0"
  else
    sign ++ toString ip ++ "." ++ String.mk (fracDigits 17 fr)

/-- One cell of `df[c] = df[c].astype(float)` with the
`except: df[c] = df[c].astype(str)` fallback (lines 55-59 of app.py):
floats stay, booleans become 1.0/0.0, `None` becomes `NaN` (still the
null marker), parseable strings become floats, other strings stay text
via `astype(str)`. -/
def astype_float_or_str (v : Value) : Value :=
  match v with
  | .vnum x => .vnum x
  | .vbool b => .vnum (if b then 1 else 0)
  | .vnull => .vnull
  | .vstr s =>
    match parseFloat s with
    | some x => .vnum x
    | none => .vstr s

/-- One cell of `df[cat] = df[cat].astype(str)` (lines 67-69 of app.py):
every cell becomes its text rendering; a NaN cell renders as `"nan"`. -/
def astype_str (v : Value) : Value :=
  match v with
  | .vnum x => .vstr (floatRepr x)
  | .vstr s => .vstr s
  | .vbool b => .vstr (if b then "True" else "False")
  | .vnull => .vstr "nan"

/-- Per-column `{min, max}` scaling bounds from the scaling-parameter
files. -/
structure MinMax where
  vmin : ℚ
  vmax : ℚ
  deriving DecidableEq, Repr

/-- A scaling-parameter table: column name to `{min, max}`. -/
def ScalingDict : Type := List (String × MinMax)

/-- `pickup_scaling if mode == "pickup" else delivery_scaling`
(line 41 of app.py). -/
def scaling_dict (pickup_scaling delivery_scaling : ScalingDict)
    (mode : String) : ScalingDict :=
  if mode = "pickup" then pickup_scaling else delivery_scaling

/-- `normalize_value(val, col, mode)` (lines 39-48 of app.py): unknown
columns pass through unchanged; a degenerate `min == max` entry yields
`0` before any division; otherwise `(val - vmin) / (vmax - vmin)`. -/
def normalize_value (pickup_scaling delivery_scaling : ScalingDict)
    (val : Value) (col : String) (mode : String) : Value :=
  match (scaling_dict pickup_scaling delivery_scaling mode).lookup col with
  | none => val
  | some mm =>
    if mm.vmax = mm.vmin then .vnum 0
    else .vnum ((to_number val - mm.vmin) / (mm.vmax - mm.vmin))

/-- The mode's fixed categorical column set (lines 61-65 of app.py). -/
def cat_features (mode : String) : List String :=
  if mode = "pickup" then
    ["city", "accept_date", "pickup_date", "hour_bucket", "day_type"]
  else
    ["city", "accept_date", "delivery_date", "day_type", "hour_bucket"]

/-- The mode's fixed expected column list, in order
(lines 71-81 of app.py). -/
def expected_cols (mode : String) : List String :=
  if mode = "pickup" then
    ["city", "lng", "lat", "aoi_type", "pickup_distance_km",
     "accept_hour", "pickup_hour", "accept_day", "pickup_day",
     "accept_month", "pickup_month", "accept_date", "pickup_date",
     "hour_bucket", "day_type"]
  else
    ["city", "lng", "lat", "aoi_type", "delivery_distance_km",
     "accept_hour", "delivery_hour", "accept_day", "delivery_day",
     "accept_month", "delivery_month", "accept_date", "delivery_date",
     "day_type", "hour_bucket"]

/-- `preprocess_payload(payload, mode)` (lines 51-87 of app.py): coerce
every present column to float with text fallback, force the mode's
categorical columns (when present) to text, then reindex to exactly
`expected_cols` in order, inserting `np.nan` for absent columns. -/
def preprocess_payload (payload : List (String × Value))
    (mode : String) : List (String × Value) :=
  let df0 := payload.map (fun e => (e.1, astype_float_or_str e.2))
  let df1 := df0.map (fun e =>
    if e.1 ∈ cat_features mode then (e.1, astype_str e.2) else e)
  (expected_cols mode).map (fun col => (col, (df1.lookup col).getD .vnull))

/-- Per-mode `{eta_min, eta_max}` bounds from
`eta_scaling_params.json`. -/
structure EtaMinMax where
  eta_min : ℚ
  eta_max : ℚ
  deriving DecidableEq, Repr

/-- The in-place normalization loop at the start of `predict_eta`
(lines 92-94 of app.py): every entry whose value passes
`isinstance(val, (int, float))` — numbers and booleans — is overwritten
with `normalize_value`; other entries are untouched. -/
def normalize_numeric_entries (pickup_scaling delivery_scaling : ScalingDict)
    (payload : List (String × Value)) (mode : String) :
    List (String × Value) :=
  payload.map (fun e =>
    if is_numeric e.2 then
      (e.1, normalize_value pickup_scaling delivery_scaling e.2 e.1 mode)
    else e)

/-- `predict_eta(payload, mode)` (lines 90-105 of app.py): normalize the
numeric entries in place, shape the payload, score it with the
mode-selected model, and denormalize the scalar with the mode's
`{eta_min, eta_max}`.  Returns `(eta_actual, eta_norm)`. -/
def predict_eta (pickup_model delivery_model : List (String × Value) → ℚ)
    (eta_scaling : String → EtaMinMax)
    (pickup_scaling delivery_scaling : ScalingDict)
    (payload : List (String × Value)) (mode : String) : ℚ × ℚ :=
  let payload2 :=
    normalize_numeric_entries pickup_scaling delivery_scaling payload mode
  let X := preprocess_payload payload2 mode
  let model := if mode = "pickup" then pickup_model else delivery_model
  let eta_norm := model X
  let eta_min := (eta_scaling mode).eta_min
  let eta_max := (eta_scaling mode).eta_max
  (eta_norm * (eta_max - eta_min) + eta_min, eta_norm)

/-- A `POST /predict` JSON body: its top-level scalar entries, plus the
optional `"features"` object held separately (nested objects appear in a
body only under the `"features"` key for the modelled requests). -/
structure ReqBody where
  entries : List (String × Value)
  features : Option (List (String × Value))
  deriving DecidableEq

/-- `data.get("mode", "pickup")` (line 124 of app.py). -/
def route_mode (b : ReqBody) : Value :=
  (b.entries.lookup "mode").getD (.vstr "pickup")

/-- `data.get("features", data)` (line 125 of app.py): the `"features"`
object when present, otherwise the entire body itself. -/
def route_payload (b : ReqBody) : List (String × Value) :=
  match b.features with
  | some f => f
  | none => b.entries

/-- Round half to even at integer precision (Python's `round`). -/
def roundHalfEven (y : ℚ) : ℤ :=
  let f := Int.floor y
  let r := y - (f : ℚ)
  if r < 1 / 2 then f
  else if r > 1 / 2 then f + 1
  else if f % 2 = 0 then f else f + 1

/-- Python `round(x, n)` on the rational model of a float. -/
def pyRound (n : Nat) (x : ℚ) : ℚ :=
  (roundHalfEven (x * 10 ^ n) : ℚ) / 10 ^ n

/-- The `POST /predict` handler (lines 117-142 of app.py), on the
no-exception fragment: extract mode and payload, reject a mode other
than `"pickup"`/`"delivery"` with a 400 `error` body, otherwise run
`predict_eta` and build the 200 response.  `elapsed` stands for the
wall-clock `time.time() - start_time`, which is outside the model.
The result is the HTTP status paired with the JSON body. -/
def predict (pickup_model delivery_model : List (String × Value) → ℚ)
    (eta_scaling : String → EtaMinMax)
    (pickup_scaling delivery_scaling : ScalingDict)
    (elapsed : ℚ) (b : ReqBody) : Nat × List (String × Value) :=
  let modeV := route_mode b
  let payload := route_payload b
  if modeV = .vstr "pickup" ∨ modeV = .vstr "delivery" then
    let mode := if modeV = .vstr "pickup" then "pickup" else "delivery"
    let r := predict_eta pickup_model delivery_model eta_scaling
      pickup_scaling delivery_scaling payload mode
    (200, [("mode", .vstr mode),
           ("eta_normalized", .vnum (pyRound 4 r.2)),
           ("eta_minutes", .vnum (pyRound 2 r.1)),
           ("processing_time_sec", .vnum (pyRound 3 elapsed))])
  else
    (400, [("error", .vstr "Invalid mode. Must be pickup or delivery")])

/-- Spec-side reading of the `/predict` feature extraction, for
comparison with `route_payload`: "if `features` is absent, the entire
body (minus `mode`) is treated as the feature mapping". -/
def body_minus_mode_spec (entries : List (String × Value)) :
    List (String × Value) :=
  entries.filter (fun e => e.1 ≠ "mode")

/-- The combined per-cell coercion that `preprocess_payload` applies to a
column present in the payload: float-with-text-fallback coercion, then
text coercion when the column is categorical for the mode. -/
def coerce_cell (mode c : String) (v : Value) : Value :=
  if c ∈ cat_features mode then astype_str (astype_float_or_str v)
  else astype_float_or_str v

theorem lookup_map_keyed (F : String → Value → Value)
    (l : List (String × Value)) (c : String) :
    (l.map fun e => (e.1, F e.1 e.2)).lookup c = (l.lookup c).map (F c) := by
  induction l with
  | nil => rfl
  | cons hd tl ih =>
    rcases hd with ⟨k, v⟩
    by_cases hk : c = k
    · subst hk
      simp [List.lookup]
    · have hb : (c == k) = false := beq_eq_false_iff_ne.mpr hk
      simp [List.lookup, hb, ih]

theorem lookup_coerced (payload : List (String × Value))
    (mode c : String) :
    ((payload.map (fun e => (e.1, astype_float_or_str e.2))).map (fun e =>
        if e.1 ∈ cat_features mode then (e.1, astype_str e.2) else e)).lookup c
      = (payload.lookup c).map (coerce_cell mode c) := by
  have hfun : ((fun e : String × Value =>
        if e.1 ∈ cat_features mode then (e.1, astype_str e.2) else e) ∘
          (fun e : String × Value => (e.1, astype_float_or_str e.2)))
      = fun e : String × Value => (e.1, coerce_cell mode e.1 e.2) := by
    funext e
    rcases e with ⟨k, v⟩
    by_cases hc : k ∈ cat_features mode <;>
      simp [Function.comp, coerce_cell, hc]
  rw [List.map_map, hfun, lookup_map_keyed]

theorem lookup_tabulate (g : String → Value) (l : List String) (c : String)
    (h : c ∈ l) :
    (l.map (fun k => (k, g k))).lookup c = some (g c) := by
  induction l with
  | nil => cases h
  | cons k t ih =>
    by_cases hk : c = k
    · subst hk
      simp [List.lookup]
    · have hb : (c == k) = false := beq_eq_false_iff_ne.mpr hk
      have hm : c ∈ t := by
        rcases List.mem_cons.mp h with h1 | h1
        · exact absurd h1 hk
        · exact h1
      simp [List.lookup, hb, ih hm]

theorem lookup_eq_none_of_not_mem_keys (l : List (String × Value))
    (c : String) (h : c ∉ l.map Prod.fst) : l.lookup c = none := by
  induction l with
  | nil => rfl
  | cons hd tl ih =>
    rcases hd with ⟨k, v⟩
    have hk : c ≠ k := by
      intro he
      exact h (by simp [he])
    have hb : (c == k) = false := beq_eq_false_iff_ne.mpr hk
    have hm : c ∉ tl.map Prod.fst := fun hmem => h (by simp [hmem])
    simp [List.lookup, hb, ih hm]

theorem map_fst_tabulate (g : String → Value) (l : List String) :
    (l.map fun k => (k, g k)).map Prod.fst = l := by
  induction l with
  | nil => rfl
  | cons k t ih => simp [ih]

/-- The shaped row's column list is exactly `expected_cols mode`. -/
theorem preprocess_keys (payload : List (String × Value)) (mode : String) :
    (preprocess_payload payload mode).map Prod.fst = expected_cols mode := by
  unfold preprocess_payload
  exact map_fst_tabulate _ _

/-- Master description of one cell of the shaped row: for an expected
column, the cell is the coerced payload value when present, `np.nan`
when absent. -/
theorem preprocess_lookup (payload : List (String × Value))
    (mode c : String) (h : c ∈ expected_cols mode) :
    (preprocess_payload payload mode).lookup c
      = some (((payload.lookup c).map (coerce_cell mode c)).getD .vnull) := by
  unfold preprocess_payload
  rw [lookup_tabulate _ _ _ h, lookup_coerced]

theorem cat_features_subset (mode c : String)
    (h : c ∈ cat_features mode) : c ∈ expected_cols mode := by
  unfold cat_features at h
  unfold expected_cols
  by_cases hm : mode = "pickup" <;>
    simp [hm] at h ⊢ <;>
    rcases h with h | h | h | h | h <;> simp [h]

theorem mode_not_expected (mode : String) :
    "mode" ∉ expected_cols mode := by
  unfold expected_cols
  by_cases hm : mode = "pickup" <;> simp [hm]

/-- C2: for every numeric value `v`, every mode, and every column present
in the mode's scaling table with `min ≠ max`, `normalize_value` returns
`(v - min) / (max - min)` — in particular `0` at `min` and `1` at `max` —
with no clamping to `[0, 1]` for out-of-range values. -/
theorem normalize_value_affine
    (pickup_scaling delivery_scaling : ScalingDict)
    (mode col : String) (mm : MinMax) (v : ℚ)
    (hl : (scaling_dict pickup_scaling delivery_scaling mode).lookup col
       = some mm)
    (hne : mm.vmin ≠ mm.vmax) :
    normalize_value pickup_scaling delivery_scaling (.vnum v) col mode
      = .vnum ((v - mm.vmin) / (mm.vmax - mm.vmin))
    ∧ normalize_value pickup_scaling delivery_scaling (.vnum mm.vmin) col mode
      = .vnum 0
    ∧ normalize_value pickup_scaling delivery_scaling (.vnum mm.vmax) col mode
      = .vnum 1 := by
  have hne2 : mm.vmax ≠ mm.vmin := fun h => hne h.symm
  have hsub : mm.vmax - mm.vmin ≠ 0 := sub_ne_zero.mpr hne2
  unfold normalize_value
  rw [hl]
  exact ⟨by simp [hne2, to_number],
         by simp [hne2, to_number],
         by simp [hne2, to_number, div_self hsub]⟩

/-- Witness for C2: with bounds `{min := 0, max := 10}` on
`pickup_distance_km`, the live value `25` normalizes (unclamped) to
`5/2`, `0` to `0`, and `10` to `1`. -/
theorem normalize_value_affine_witness :
    normalize_value [("pickup_distance_km", ⟨0, 10⟩)] []
        (.vnum 25) "pickup_distance_km" "pickup" = .vnum (5 / 2)
    ∧ normalize_value [("pickup_distance_km", ⟨0, 10⟩)] []
        (.vnum 0) "pickup_distance_km" "pickup" = .vnum 0
    ∧ normalize_value [("pickup_distance_km", ⟨0, 10⟩)] []
        (.vnum 10) "pickup_distance_km" "pickup" = .vnum 1 := by
  have h := normalize_value_affine [("pickup_distance_km", ⟨0, 10⟩)] []
    "pickup" "pickup_distance_km" ⟨0, 10⟩ 25 (by decide) (by decide)
  refine ⟨?_, h.2.1, h.2.2⟩
  rw [h.1]
  norm_num

/-- C6: for every value `v` (of any kind), every mode, and every column
whose scaling entry has `min == max`, `normalize_value` returns `0`; the
degenerate-range branch fires before the division, so
`(val - vmin) / (vmax - vmin)` is never evaluated with a zero
denominator. -/
theorem normalize_value_degenerate
    (pickup_scaling delivery_scaling : ScalingDict)
    (mode col : String) (mm : MinMax) (val : Value)
    (hl : (scaling_dict pickup_scaling delivery_scaling mode).lookup col
       = some mm)
    (heq : mm.vmin = mm.vmax) :
    normalize_value pickup_scaling delivery_scaling val col mode
      = .vnum 0 := by
  unfold normalize_value
  rw [hl]
  simp [heq]

/-- Witness for C6: a degenerate `{min := 3, max := 3}` entry sends even
a text value to `0`. -/
theorem normalize_value_degenerate_witness :
    normalize_value [("x", ⟨3, 3⟩)] [] (.vstr "q") "x" "pickup"
      = .vnum 0 :=
  normalize_value_degenerate [("x", ⟨3, 3⟩)] [] "pickup" "x" ⟨3, 3⟩
    (.vstr "q") (by decide) (by decide)

/-- C7: for every value `v` and every mode, a column with no entry in the
mode's scaling table passes through `normalize_value` unchanged. -/
theorem normalize_value_passthrough
    (pickup_scaling delivery_scaling : ScalingDict)
    (mode col : String) (val : Value)
    (hl : (scaling_dict pickup_scaling delivery_scaling mode).lookup col
       = none) :
    normalize_value pickup_scaling delivery_scaling val col mode = val := by
  unfold normalize_value
  rw [hl]

/-- Witness for C7: `lat` is absent from the scaling table, so its value
passes through unchanged. -/
theorem normalize_value_passthrough_witness :
    normalize_value [("pickup_distance_km", ⟨0, 10⟩)] []
        (.vnum 7) "lat" "pickup" = .vnum 7 :=
  normalize_value_passthrough [("pickup_distance_km", ⟨0, 10⟩)] []
    "pickup" "lat" (.vnum 7) (by decide)

/-- C1: for every payload and both modes, `predict_eta` returns the pair
`(eta_minutes, eta_normalized)` where `eta_normalized` is the output of
the mode-selected scoring function on the shaped (normalized) row, and
`eta_minutes = eta_normalized * (eta_max - eta_min) + eta_min` with the
mode's ETA scaling bounds; neither value is clamped — the result is
exactly this affine image of the raw model output. -/
theorem predict_eta_denormalizes
    (pickup_model delivery_model : List (String × Value) → ℚ)
    (eta_scaling : String → EtaMinMax)
    (pickup_scaling delivery_scaling : ScalingDict)
    (payload : List (String × Value)) :
    (predict_eta pickup_model delivery_model eta_scaling
        pickup_scaling delivery_scaling payload "pickup"
      = (pickup_model (preprocess_payload
            (normalize_numeric_entries pickup_scaling delivery_scaling
              payload "pickup") "pickup")
           * ((eta_scaling "pickup").eta_max - (eta_scaling "pickup").eta_min)
           + (eta_scaling "pickup").eta_min,
         pickup_model (preprocess_payload
            (normalize_numeric_entries pickup_scaling delivery_scaling
              payload "pickup") "pickup")))
    ∧ (predict_eta pickup_model delivery_model eta_scaling
        pickup_scaling delivery_scaling payload "delivery"
      = (delivery_model (preprocess_payload
            (normalize_numeric_entries pickup_scaling delivery_scaling
              payload "delivery") "delivery")
           * ((eta_scaling "delivery").eta_max - (eta_scaling "delivery").eta_min)
           + (eta_scaling "delivery").eta_min,
         delivery_model (preprocess_payload
            (normalize_numeric_entries pickup_scaling delivery_scaling
              payload "delivery") "delivery"))) :=
  ⟨rfl, rfl⟩

/-- C3: for every payload and every mode, the shaped row has exactly the
mode's 15 expected columns in the fixed order; expected columns absent
from the payload come out as the null marker; columns outside the
expected list are dropped; and the empty pickup payload yields the 15
pickup columns, all null, in order. -/
theorem preprocess_payload_schema (payload : List (String × Value))
    (mode : String) :
    ((preprocess_payload payload mode).map Prod.fst = expected_cols mode)
    ∧ (∀ c, c ∈ expected_cols mode → payload.lookup c = none →
        (preprocess_payload payload mode).lookup c = some .vnull)
    ∧ (∀ c, c ∉ expected_cols mode →
        (preprocess_payload payload mode).lookup c = none)
    ∧ preprocess_payload [] "pickup"
        = (expected_cols "pickup").map (fun c => (c, Value.vnull)) := by
  refine ⟨preprocess_keys payload mode, ?_, ?_, by decide⟩
  · intro c hc hnone
    rw [preprocess_lookup payload mode c hc, hnone]
    rfl
  · intro c hc
    refine lookup_eq_none_of_not_mem_keys _ _ ?_
    rw [preprocess_keys]
    exact hc

/-- Witness for C3: shaping `{lng: 1}` in pickup mode gives exactly the
15 pickup columns; the absent `city` comes out null and the alien
column `junk` is dropped. -/
theorem preprocess_payload_schema_witness :
    ((preprocess_payload [("lng", Value.vnum 1), ("junk", Value.vstr "x")]
        "pickup").map Prod.fst = expected_cols "pickup")
    ∧ (preprocess_payload [("lng", Value.vnum 1), ("junk", Value.vstr "x")]
        "pickup").lookup "city" = some .vnull
    ∧ (preprocess_payload [("lng", Value.vnum 1), ("junk", Value.vstr "x")]
        "pickup").lookup "junk" = none := by
  have h := preprocess_payload_schema
    [("lng", Value.vnum 1), ("junk", Value.vstr "x")] "pickup"
  exact ⟨h.1, h.2.1 "city" (by decide) (by decide),
         h.2.2.1 "junk" (by decide)⟩

/-- C8: shaping is idempotent on the column set and order — re-shaping
the shaper's output (read back as a payload) yields the same columns in
the same order as the first shaping. -/
theorem preprocess_payload_idempotent_columns
    (payload : List (String × Value)) (mode : String) :
    (preprocess_payload (preprocess_payload payload mode) mode).map Prod.fst
      = (preprocess_payload payload mode).map Prod.fst := by
  rw [preprocess_keys, preprocess_keys]

/-- Counterexample to C4 as stated: in the empty pickup payload the
categorical column `city` is ABSENT from the input, and the shaper
emits it as the null marker `np.nan`, not as text — the `astype(str)`
loop only touches columns present in the frame, and the null fill
happens after it. -/
theorem absent_categorical_is_null :
    "city" ∈ cat_features "pickup"
    ∧ (preprocess_payload [] "pickup").lookup "city" = some Value.vnull
    ∧ is_text Value.vnull = false := by
  decide

/-- C4 (amended): for every payload and mode, every categorical column
that IS present in the input payload is represented as text in the
shaped row, whatever its input value (numeric-looking included); absent
categorical columns are filled with the null marker instead. -/
theorem present_categorical_is_text (payload : List (String × Value))
    (mode c : String) (v : Value)
    (hcat : c ∈ cat_features mode)
    (hv : payload.lookup c = some v) :
    (preprocess_payload payload mode).lookup c
      = some (astype_str (astype_float_or_str v))
    ∧ is_text (astype_str (astype_float_or_str v)) = true := by
  constructor
  · rw [preprocess_lookup payload mode c (cat_features_subset mode c hcat),
      hv]
    simp [coerce_cell, hcat]
  · cases astype_float_or_str v <;> rfl

/-- Witness for C4 (amended): a numeric-looking `city` value `7` comes
out of the pickup shaper as the text `"7.0"`. -/
theorem present_categorical_is_text_witness :
    (preprocess_payload [("city", Value.vnum 7)] "pickup").lookup "city"
      = some (astype_str (astype_float_or_str (Value.vnum 7)))
    ∧ is_text (astype_str (astype_float_or_str (Value.vnum 7))) = true :=
  present_categorical_is_text [("city", Value.vnum 7)] "pickup" "city"
    (Value.vnum 7) (by decide) (by decide)

/-- Counterexample to C5 as stated: for a body without a `"features"`
key, `data.get("features", data)` passes the ENTIRE body — the
`"mode"` entry included — to `predict_eta`; the `"mode"` key is not
removed from the feature mapping. -/
theorem route_payload_keeps_mode :
    route_payload ⟨[("mode", Value.vstr "pickup"), ("lng", Value.vnum 1)],
        none⟩
      ≠ body_minus_mode_spec
          [("mode", Value.vstr "pickup"), ("lng", Value.vnum 1)]
    ∧ ("mode", Value.vstr "pickup")
      ∈ route_payload ⟨[("mode", Value.vstr "pickup"),
          ("lng", Value.vnum 1)], none⟩ := by
  decide

/-- C5 (amended): for a body without a `"features"` key, the feature
mapping passed to the pipeline is the entire body, `"mode"` key
included; the `"mode"` entry nevertheless never reaches the model,
because `"mode"` is not among any mode's expected columns, so the
shaped row never contains an entry keyed `"mode"`. -/
theorem route_payload_whole_body (b : ReqBody)
    (hf : b.features = none) :
    route_payload b = b.entries
    ∧ ∀ (payload : List (String × Value)) (mode : String),
        "mode" ∉ (preprocess_payload payload mode).map Prod.fst := by
  constructor
  · unfold route_payload
    rw [hf]
  · intro payload mode
    rw [preprocess_keys]
    exact mode_not_expected mode

/-- Witness for C5 (amended): a concrete featureless body is passed on
whole, and the shaped row built from it has no `"mode"` column. -/
theorem route_payload_whole_body_witness :
    route_payload ⟨[("mode", Value.vstr "pickup"), ("lng", Value.vnum 1)],
        none⟩
      = [("mode", Value.vstr "pickup"), ("lng", Value.vnum 1)]
    ∧ "mode" ∉ (preprocess_payload
        [("mode", Value.vstr "pickup"), ("lng", Value.vnum 1)]
        "pickup").map Prod.fst := by
  have h := route_payload_whole_body
    ⟨[("mode", Value.vstr "pickup"), ("lng", Value.vnum 1)], none⟩ rfl
  exact ⟨h.1, h.2 _ "pickup"⟩

/-- C9: a `POST /predict` body whose `"mode"` value is neither
`"pickup"` nor `"delivery"` gets a 400 response whose body is exactly
the `error` object — for EVERY choice of models and tables, so the
prediction pipeline is never consulted; and a body with no `"mode"`
key gets the default mode `"pickup"`. -/
theorem predict_invalid_mode :
    (∀ (pickup_model delivery_model : List (String × Value) → ℚ)
       (eta_scaling : String → EtaMinMax)
       (pickup_scaling delivery_scaling : ScalingDict)
       (elapsed : ℚ) (b : ReqBody) (v : Value),
        b.entries.lookup "mode" = some v →
        v ≠ .vstr "pickup" → v ≠ .vstr "delivery" →
        predict pickup_model delivery_model eta_scaling pickup_scaling
            delivery_scaling elapsed b
          = (400,
             [("error",
               .vstr "Invalid mode. Must be pickup or delivery")]))
    ∧ (∀ b : ReqBody, b.entries.lookup "mode" = none →
        route_mode b = .vstr "pickup") := by
  constructor
  · intro pm dm es ps ds elapsed b v hm h1 h2
    unfold predict route_mode
    rw [hm]
    simp [h1, h2]
  · intro b hm
    unfold route_mode
    rw [hm]
    rfl

/-- Witness for C9: `mode: "sideways"` yields the 400 error response
(with concrete stub models), and a modeless body defaults to
`"pickup"`. -/
theorem predict_invalid_mode_witness :
    predict (fun _ => 1 / 2) (fun _ => 1 / 2) (fun _ => ⟨0, 100⟩) [] [] 0
        ⟨[("mode", Value.vstr "sideways")], none⟩
      = (400, [("error", Value.vstr "Invalid mode. Must be pickup or delivery")])
    ∧ route_mode ⟨[("lng", Value.vnum 1)], none⟩ = Value.vstr "pickup" :=
  ⟨predict_invalid_mode.1 _ _ _ _ _ _ _ (Value.vstr "sideways")
      (by decide) (by decide) (by decide),
   predict_invalid_mode.2 _ (by decide)⟩

/-- C10: a boolean payload value passes predict_eta's
`isinstance(val, (int, float))` check (Python booleans are ints), so
the normalization loop overwrites the entry with `normalize_value`
applied to it, and — whenever the column has a scaling entry — the
arithmetic treats the boolean as `1`/`0`, exactly as for the numeric
value `1`/`0`; it is not left untouched as a non-numeric value. -/
theorem predict_eta_bool_normalized
    (pickup_scaling delivery_scaling : ScalingDict)
    (mode c : String) (b : Bool)
    (pre post : List (String × Value)) :
    is_numeric (.vbool b) = true
    ∧ normalize_numeric_entries pickup_scaling delivery_scaling
        (pre ++ (c, Value.vbool b) :: post) mode
      = normalize_numeric_entries pickup_scaling delivery_scaling pre mode
        ++ (c, normalize_value pickup_scaling delivery_scaling
              (.vbool b) c mode)
          :: normalize_numeric_entries pickup_scaling delivery_scaling
              post mode
    ∧ (∀ mm,
        (scaling_dict pickup_scaling delivery_scaling mode).lookup c
          = some mm →
        normalize_value pickup_scaling delivery_scaling (.vbool b) c mode
          = normalize_value pickup_scaling delivery_scaling
              (.vnum (if b then 1 else 0)) c mode) := by
  refine ⟨rfl, ?_, ?_⟩
  · simp [normalize_numeric_entries, is_numeric]
  · intro mm hm
    unfold normalize_value
    rw [hm]
    by_cases hd : mm.vmax = mm.vmin <;> simp [hd, to_number]

/-- Witness for C10: with bounds `{min := 0, max := 2}` on `flag`, the
boolean `True` is overwritten by the normalization loop and normalizes
exactly like the number `1`. -/
theorem predict_eta_bool_normalized_witness :
    normalize_numeric_entries [("flag", ⟨0, 2⟩)] []
        [("flag", Value.vbool true)] "pickup"
      = [("flag", normalize_value [("flag", ⟨0, 2⟩)] []
            (.vbool true) "flag" "pickup")]
    ∧ normalize_value [("flag", ⟨0, 2⟩)] [] (.vbool true) "flag" "pickup"
      = normalize_value [("flag", ⟨0, 2⟩)] [] (.vnum 1) "flag" "pickup" := by
  have h := predict_eta_bool_normalized [("flag", ⟨0, 2⟩)] [] "pickup"
    "flag" true [] []
  exact ⟨h.2.1, h.2.2 ⟨0, 2⟩ (by decide)⟩

end EtaModel
